import Mathlib

/-!
Shallow embedding of the MoneyMentor retrieval pipeline
(`app/rag_pipeline.py`, `app/vectorstore.py`,
`app/retrievers/hybrid_rerank_retriever.py`).

External collaborators (OpenAI embeddings, Qdrant client, Cohere rerank,
the text splitter, the file system) are modelled as explicit function
parameters; a call that may raise is modelled as returning an `Option`
(`none` = the call raised / failed).  Mutable state (the Qdrant store,
the collection list) is threaded explicitly.
-/

namespace MoneyMentor

/-- Embedding vectors; their numeric content is irrelevant to the claims. -/
abbrev Vec := List Int

/-- A value stored in a Qdrant payload dict. -/
inductive PayloadVal where
  | str (s : String)
  | nat (n : Nat)
deriving DecidableEq, Repr

/-- Mirror of `qdrant_client.models.PointStruct` as built in `load_knowledge`:
payload is the dict literal written in the source, kept as an association
list so that the set of keys is part of the data. -/
structure PointStruct where
  id : Nat
  vector : Vec
  payload : List (String × PayloadVal)
deriving DecidableEq, Repr

/-- One chunk dict as appended to `all_chunks` in `load_knowledge`:
`{"text": chunk_text, "source": file_path.name, "chunk_id": i}`. -/
structure Chunk where
  text : String
  source : String
  chunk_id : Nat
deriving DecidableEq, Repr

/-- The statistics dictionary returned by `load_knowledge`. -/
structure LoadResult where
  success : Bool
  error : Option String
  documents_processed : Nat
  chunks_created : Nat
  vectors_indexed : Nat
deriving DecidableEq, Repr

/-- Helper for the failure dictionaries returned by `load_knowledge`. -/
def failResult (e : String) (dp cc vi : Nat) : LoadResult :=
  ⟨false, some e, dp, cc, vi⟩

/-- Python's `not text.strip()`: the text is empty or whitespace-only. -/
def isBlank (s : String) : Bool := s.data.all Char.isWhitespace

/-- The per-file chunking loop of `load_knowledge` (lines 176-204):
an empty (whitespace-only) file is skipped; otherwise the splitter output
is appended as chunk dicts with `chunk_id` = position in the file, and
`documents_processed` is incremented. -/
def chunkFiles (split : String → List String) (files : List (String × String)) :
    Nat × List Chunk :=
  files.foldl
    (fun acc f =>
      if isBlank f.2 then acc
      else (acc.1 + 1, acc.2 ++ ((split f.2).enum.map (fun p => ⟨p.2, f.1, p.1⟩))))
    (0, [])

/-- The payload dict literal of `load_knowledge` lines 240-244. -/
def mkPayload (c : Chunk) : List (String × PayloadVal) :=
  [("text", .str c.text), ("source", .str c.source), ("chunk_id", .nat c.chunk_id)]

/-- The inner loop of the embedding phase (lines 235-245):
`for j, (chunk, vector) in enumerate(zip(batch, vectors)): point_id = i + j`. -/
def mkPoints (i : Nat) (batch : List Chunk) (vectors : List Vec) : List PointStruct :=
  (batch.zip vectors).enum.map (fun p => ⟨i + p.1, p.2.2, mkPayload p.2.1⟩)

/-- The embedding batch loop of `load_knowledge` (lines 225-254), batch
size 20.  `embed` models `embeddings.embed_documents`; `none` models the
call raising.  On a raised batch the code logs and `continue`s with the
next batch, appending nothing for the failed one. -/
def embedBatchesGo (embed : List String → Option (List Vec)) (i : Nat)
    (chunks : List Chunk) : List PointStruct :=
  match chunks with
  | [] => []
  | c :: cs =>
    (match embed (((c :: cs).take 20).map Chunk.text) with
     | some vectors => mkPoints i ((c :: cs).take 20) vectors
     | none => []) ++ embedBatchesGo embed (i + 20) ((c :: cs).drop 20)
termination_by chunks.length
decreasing_by
  simp only [List.length_drop, List.length_cons]
  omega

/-- The upsert batch loop of `load_knowledge` (lines 268-300), batch size
100.  `upsertOk` models the boolean result of `upsert_points`; the store
(written points) is threaded explicitly, a successful batch appends its
points.  A failed batch returns immediately with the counts completed so
far; the final `vectors_indexed != len(points)` check of line 293 is kept. -/
def upsertGo (upsertOk : List PointStruct → Bool) (points : List PointStruct)
    (dp cc : Nat) (i vi : Nat) (store : List PointStruct) :
    LoadResult × List PointStruct :=
  if _h : i < points.length then
    let batch := (points.drop i).take 100
    if upsertOk batch then
      upsertGo upsertOk points dp cc (i + 100) (vi + batch.length) (store ++ batch)
    else
      (failResult ("Failed to upsert vectors at batch " ++ toString (i / 100 + 1)) dp cc vi,
       store)
  else
    if vi ≠ points.length then (failResult "Incomplete upsert" dp cc vi, store)
    else (⟨true, none, dp, cc, vi⟩, store)
termination_by points.length - i
decreasing_by omega

/-- Environment guards checked at the top of `load_knowledge`
(API key present, Qdrant reachable, `ensure_collection` succeeded,
processed directory exists). -/
structure IndexEnv where
  has_api_key : Bool
  client_ok : Bool
  ensure_ok : Bool
  dir_exists : Bool
deriving DecidableEq, Repr

/-- `load_knowledge` of `app/rag_pipeline.py` (lines 66-330).  `files` is
the list of `(name, text)` pairs produced by the `*.txt` glob, `split`
models `CharacterTextSplitter.split_text`, `embed` the OpenAI embedding
call, `upsertOk` the result of `upsert_points`; `store` is the Qdrant
collection content before the call. -/
def load_knowledge (env : IndexEnv) (files : List (String × String))
    (split : String → List String) (embed : List String → Option (List Vec))
    (upsertOk : List PointStruct → Bool) (store : List PointStruct) :
    LoadResult × List PointStruct :=
  if ¬env.has_api_key then (failResult "OPENAI_API_KEY not set" 0 0 0, store)
  else if ¬env.client_ok then (failResult "Qdrant connection failed" 0 0 0, store)
  else if ¬env.ensure_ok then (failResult "Failed to create collection" 0 0 0, store)
  else if ¬env.dir_exists then (failResult "Directory not found" 0 0 0, store)
  else if files.isEmpty then (failResult "No text files found" 0 0 0, store)
  else
    let dc := chunkFiles split files
    if dc.2.isEmpty then (failResult "No chunks created" dc.1 0 0, store)
    else
      let points := embedBatchesGo embed 0 dc.2
      if points.isEmpty then
        (failResult "Embedding generation failed" dc.1 dc.2.length 0, store)
      else
        upsertGo upsertOk points dc.1 dc.2.length 0 0 store

/-! Vector store setup (`app/vectorstore.py`). -/

/-- Configuration of one Qdrant collection (`VectorParams`). -/
structure CollectionCfg where
  size : Nat
  distance : String
deriving DecidableEq, Repr

/-- The collection list held by the Qdrant server. -/
structure QdrantState where
  collections : List (String × CollectionCfg)
deriving DecidableEq, Repr

/-- `ensure_collection` of `app/vectorstore.py` (lines 74-128).
`client_ok` models `get_qdrant_client()` returning a client; `list_ok`
models `client.get_collections()` not raising; `create_ok` models
`client.create_collection` not raising.  Returns the boolean result of
the Python function together with the server state after the call. -/
def ensure_collection (client_ok list_ok create_ok : Bool) (st : QdrantState)
    (collection_name : String) (vector_size : Nat) (distance : String) :
    Bool × QdrantState :=
  if ¬client_ok then (false, st)
  else if ¬list_ok then (false, st)
  else if collection_name ∈ st.collections.map Prod.fst then (true, st)
  else if create_ok then
    (true, ⟨st.collections ++ [(collection_name, ⟨vector_size, distance⟩)]⟩)
  else (false, st)

/-! Hybrid retriever with reranking
(`app/retrievers/hybrid_rerank_retriever.py`). -/

/-- Metadata dict of a LangChain `Document` as used by this pipeline;
each field is a key that may or may not be present in the dict. -/
structure DocMeta where
  source : Option String := none
  file_path : Option String := none
  chunk_id : Option Nat := none
  score : Option Rat := none
  rerank_score : Option Rat := none
  rerank_position : Option Nat := none
deriving DecidableEq, Repr

/-- A LangChain `Document`. -/
structure Document where
  page_content : String
  metadata : DocMeta
deriving DecidableEq, Repr

/-- One entry of a Cohere rerank response: `(index, relevance_score)`. -/
structure RerankResult where
  index : Nat
  relevance_score : Rat
deriving DecidableEq, Repr

/-- `load_documents_for_bm25` (lines 42-81): loads every non-empty
processed `*.txt` file whole, as one `Document` whose `page_content` is
the entire file text, with metadata `source` (file name) and `file_path`
(path string, abstracted here to the file name).  A missing directory
yields `[]`. -/
def load_documents_for_bm25 (dir_exists : Bool) (files : List (String × String)) :
    List Document :=
  if ¬dir_exists then []
  else
    files.foldl
      (fun docs f =>
        if isBlank f.2 then docs
        else docs ++ [⟨f.2, { source := some f.1, file_path := some f.1 }⟩])
      []

namespace HybridReranker

/-- The result-processing loop of `get_relevant_documents` (lines 236-244)
together with the logging access `reranked_docs[0]` of line 247.  The loop
mutates `docs[result.index].metadata` in place and appends the document to
`reranked_docs`; an out-of-range index raises `IndexError`, caught by the
surrounding `except`.  Value-semantics rendering: `error` carries the
document list as mutated so far (the state the fallback slices), `ok`
carries the mutated list and the reranked list. -/
def applyRerank (docs : List Document) (results : List RerankResult)
    (reranked : List Document) :
    Except (List Document) (List Document × List Document) :=
  match results with
  | [] => .ok (docs, reranked)
  | r :: rs =>
    match docs.get? r.index with
    | none => .error docs
    | some d =>
      let d2 := { d with metadata :=
        { d.metadata with rerank_score := some r.relevance_score,
                          rerank_position := some (reranked.length + 1) } }
      applyRerank (docs.set r.index d2) rs (reranked ++ [d2])

/-- `HybridReranker.get_relevant_documents` (lines 202-255).  `base` models
`self.base_retriever.get_relevant_documents`; `rerank` models the Cohere
rerank API call (`none` = the call raised), given the query, the candidate
texts and `top_n = self.top_k`.  Any exception inside the `try` block
(the rerank call itself, an out-of-range response index, or the
`reranked_docs[0]` log line when the response is empty) falls back to the
first `top_k` documents of the base order. -/
def get_relevant_documents (base : String → List Document)
    (rerank : String → List String → Nat → Option (List RerankResult))
    (top_k : Nat) (query : String) : List Document :=
  let docs := base query
  if docs.isEmpty then []
  else
    match rerank query (docs.map Document.page_content) top_k with
    | none => docs.take top_k
    | some results =>
      match applyRerank docs results [] with
      | .error docs2 => docs2.take top_k
      | .ok (docs2, reranked) =>
        if reranked.isEmpty then docs2.take top_k
        else reranked

end HybridReranker

/-! Mode selection and the query path (`app/rag_pipeline.py`). -/

/-- The retriever returned by `get_retriever`: either the base similarity
retriever built by `get_base_retriever` or the hybrid rerank retriever
built by `get_advanced_retriever`, each carrying its construction
parameters. -/
inductive Retriever where
  | base (collection_name : String) (k : Nat)
  | advanced (collection_name : String) (k : Nat)
deriving DecidableEq, Repr

/-- `get_retriever` of `app/rag_pipeline.py` (lines 425-443). -/
def get_retriever (mode : String) (collection_name : String) (k : Nat) : Retriever :=
  if mode = "advanced" then .advanced collection_name k
  else .base collection_name k

/-- The chat model constant of `app/rag_pipeline.py`. -/
def CHAT_MODEL : String := "gpt-4o-mini"

/-- The chunk size constant of `app/rag_pipeline.py`. -/
def CHUNK_SIZE : Nat := 800

/-- The no-results answer of `get_finance_answer` (line 505). -/
def noInfoAnswer : String :=
  "I apologize, but I couldn\x27t find relevant information in my knowledge base to answer your question. Please ensure the knowledge base has been loaded, or try rephrasing your question."

/-- The missing-API-key answer of `get_finance_answer` (line 489). -/
def apiKeyErrorAnswer : String :=
  "Error: OpenAI API key not configured. Please set OPENAI_API_KEY environment variable."

/-- One element of the `sources` list built by `get_finance_answer`. -/
structure SourceEntry where
  source : String
  chunk_id : Nat
  score : Rat
  text : String
deriving DecidableEq, Repr

/-- The `metadata` sub-dictionary of a successful `get_finance_answer`
result. -/
structure QAMeta where
  retriever_mode : String
  num_docs : Nat
  num_sources : Nat
  k : Nat
deriving DecidableEq, Repr

/-- The dictionary returned by `get_finance_answer`. -/
structure QAResult where
  answer : String
  sources : List SourceEntry
  query : String
  model : String
  mode : String
  metadata : Option QAMeta := none
  contexts : Option (List String) := none
deriving DecidableEq, Repr

/-- The source-entry construction of `get_finance_answer` (lines 533-545). -/
def mkSource (d : Document) : SourceEntry :=
  { source := d.metadata.source.getD "unknown",
    chunk_id := d.metadata.chunk_id.getD 0,
    score := d.metadata.score.getD 0,
    text := if d.page_content.length > 200 then d.page_content.take 200 ++ "..."
            else d.page_content }

/-- The context string of `get_finance_answer` (lines 533-548). -/
def buildContext (docs : List Document) : String :=
  String.intercalate "\n\n---\n\n"
    (docs.enum.map (fun p =>
      "[Source " ++ toString (p.1 + 1) ++ ": " ++ p.2.metadata.source.getD "unknown"
        ++ "]\n" ++ p.2.page_content))

/-- `get_finance_answer` of `app/rag_pipeline.py` (lines 451-623).
`retrieve` models `retriever.get_relevant_documents` for the retriever
selected by `mode`; `llm` models the chat-model call on the context and
the question. -/
def get_finance_answer (has_api_key : Bool) (retrieve : String → List Document)
    (llm : String → String → String) (query : String) (k : Nat) (mode : String)
    (return_context : Bool) : QAResult :=
  if ¬has_api_key then
    { answer := apiKeyErrorAnswer, sources := [], query := query,
      model := "error", mode := mode }
  else
    let docs := retrieve query
    if docs.isEmpty then
      { answer := noInfoAnswer, sources := [], query := query,
        model := CHAT_MODEL, mode := mode }
    else
      let sources := docs.map mkSource
      { answer := llm (buildContext docs) query, sources := sources, query := query,
        model := CHAT_MODEL, mode := mode,
        metadata := some ⟨mode, docs.length, sources.length, k⟩,
        contexts := if return_context then some (docs.map Document.page_content)
                    else none }

/-! Concrete fixtures used by witnesses and counterexamples. -/

/-- Environment with every guard of `load_knowledge` satisfied. -/
def env_all_ok : IndexEnv := ⟨true, true, true, true⟩

/-- A splitter producing 21 chunks, so the embedding phase runs 2 batches. -/
def split21 : String → List String := fun _ => List.replicate 21 "c"

/-- An embedding collaborator that raises exactly on the 20-text batch
(the first batch of a 21-chunk corpus) and succeeds on smaller batches. -/
def embedFailFirst : List String → Option (List Vec) :=
  fun ts => if ts.length = 20 then none else some (ts.map (fun _ => ([] : Vec)))

/-- The chunk list produced by `split21` on the file `a.txt`. -/
def chunks21 : List Chunk :=
  (List.replicate 21 "c").enum.map (fun p => ⟨p.2, "a.txt", p.1⟩)

/-- A splitter producing 22 chunks. -/
def split22 : String → List String := fun _ => List.replicate 22 "d"

/-- The chunk list produced by `split22` on the file `b.txt`. -/
def chunks22 : List Chunk :=
  (List.replicate 22 "d").enum.map (fun p => ⟨p.2, "b.txt", p.1⟩)

/-- A splitter producing 5 chunks per file. -/
def split5 : String → List String := fun _ => List.replicate 5 "e"

/-- An embedding collaborator that always succeeds, one vector per text. -/
def embedTotal : List String → Option (List Vec) :=
  fun ts => some (ts.map (fun _ => ([] : Vec)))

/-- Sample retrieved documents. -/
def docA : Document := ⟨"alpha", {}⟩

/-- Sample retrieved documents. -/
def docB : Document := ⟨"beta", {}⟩

/-- A 900-character file text (450 times a, a newline, 449 times b):
longer than `CHUNK_SIZE = 800`, split by the chunker at the newline. -/
def t900 : String := String.mk (List.replicate 450 'a' ++ '\n' :: List.replicate 449 'b')

/-- The chunker output on `t900`: two chunks, each under `CHUNK_SIZE`. -/
def split900 : String → List String :=
  fun _ => [String.mk (List.replicate 450 'a'), String.mk (List.replicate 449 'b')]

/-- 101 points, so the upsert phase runs 2 batches. -/
def pts101 : List PointStruct := (List.range 101).map (fun n => ⟨n, [], []⟩)

/-- A two-file corpus. -/
def files10 : List (String × String) := [("a.txt", "x"), ("b.txt", "y")]

/-- The 10 chunks produced by `split5` on `files10` (5 per file, with
per-file zero-based chunk ids). -/
def chunks10 : List Chunk :=
  ((List.replicate 5 "e").enum.map (fun p => ⟨p.2, "a.txt", p.1⟩)) ++
  ((List.replicate 5 "e").enum.map (fun p => ⟨p.2, "b.txt", p.1⟩))

/-- The 10 points produced by embedding `chunks10` in one batch. -/
def pts10 : List PointStruct := mkPoints 0 chunks10 (List.replicate 10 ([] : Vec))

/-- A splitter producing two chunks, used for the payload-contract witness. -/
def split2C7 : String → List String := fun _ => ["s0", "s1"]

/-- The chunks produced by `split2C7` on the file `a.txt`. -/
def chunks2C7 : List Chunk := [⟨"s0", "a.txt", 0⟩, ⟨"s1", "a.txt", 1⟩]

/-- The second point produced by embedding `chunks2C7`. -/
def ptC7 : PointStruct := ⟨1, [], mkPayload ⟨"s1", "a.txt", 1⟩⟩

/-- An upsert collaborator that succeeds on full 100-point batches and
fails on the trailing one. -/
def upsertOkFirst : List PointStruct → Bool := fun b => b.length = 100

/-! General lemmas about the loops (shared by several claims). -/

/-- Unfolding of `embedBatchesGo`: a batch whose embedding call raises is
skipped and the loop continues with the next batch. -/
theorem embedBatchesGo_none (embed : List String → Option (List Vec)) (i : Nat)
    (chunks : List Chunk) (h : chunks ≠ [])
    (hfail : embed ((chunks.take 20).map Chunk.text) = none) :
    embedBatchesGo embed i chunks = embedBatchesGo embed (i + 20) (chunks.drop 20) := by
  match chunks, h with
  | c :: cs, _ =>
    rw [embedBatchesGo.eq_2, hfail]
    simp

/-- Unfolding of `embedBatchesGo`: a successful batch contributes its
points and the loop continues with the next batch. -/
theorem embedBatchesGo_some (embed : List String → Option (List Vec)) (i : Nat)
    (chunks : List Chunk) (vs : List Vec) (h : chunks ≠ [])
    (hok : embed ((chunks.take 20).map Chunk.text) = some vs) :
    embedBatchesGo embed i chunks =
      mkPoints i (chunks.take 20) vs ++ embedBatchesGo embed (i + 20) (chunks.drop 20) := by
  match chunks, h with
  | c :: cs, _ =>
    rw [embedBatchesGo.eq_2, hok]

/-- When every embedding call raises, no point is produced at all. -/
theorem embedBatchesGo_allFail (embed : List String → Option (List Vec))
    (hf : ∀ ts, embed ts = none) (i : Nat) (chunks : List Chunk) :
    embedBatchesGo embed i chunks = [] := by
  induction i, chunks using embedBatchesGo.induct embed with
  | case1 i => rw [embedBatchesGo.eq_1]
  | case2 i c cs ih => rw [embedBatchesGo.eq_2, hf]; simpa using ih

/-- The length of the points of one batch. -/
theorem mkPoints_length (i : Nat) (batch : List Chunk) (vs : List Vec) :
    (mkPoints i batch vs).length = min batch.length vs.length := by
  simp [mkPoints]

/-- When every embedding call succeeds with one vector per text, exactly
one point is produced per chunk. -/
theorem embedBatchesGo_total_length (embed : List String → Option (List Vec))
    (h : ∀ ts, ∃ vs, embed ts = some vs ∧ vs.length = ts.length)
    (i : Nat) (chunks : List Chunk) :
    (embedBatchesGo embed i chunks).length = chunks.length := by
  induction i, chunks using embedBatchesGo.induct embed with
  | case1 i => rw [embedBatchesGo.eq_1]; rfl
  | case2 i c cs ih =>
    obtain ⟨vs, hvs, hlen⟩ := h (((c :: cs).take 20).map Chunk.text)
    rw [embedBatchesGo.eq_2, hvs]
    simp only [List.length_append, List.length_map] at *
    rw [mkPoints_length, hlen, ih]
    simp only [List.length_take, List.length_drop, List.length_map, List.length_cons]
    omega

/-- Unfolding of `upsertGo`: a successful batch is appended to the store
and counted, and the loop continues. -/
theorem upsertGo_step (uOk : List PointStruct → Bool) (points : List PointStruct)
    (dp cc i vi : Nat) (store : List PointStruct) (h : i < points.length)
    (hok : uOk ((points.drop i).take 100) = true) :
    upsertGo uOk points dp cc i vi store =
      upsertGo uOk points dp cc (i + 100) (vi + ((points.drop i).take 100).length)
        (store ++ (points.drop i).take 100) := by
  rw [upsertGo.eq_def]
  simp [h, hok]

/-- Unfolding of `upsertGo`: past the end, the final count check decides
between the success result and `Incomplete upsert`. -/
theorem upsertGo_done (uOk : List PointStruct → Bool) (points : List PointStruct)
    (dp cc i vi : Nat) (store : List PointStruct) (h : ¬ i < points.length) :
    upsertGo uOk points dp cc i vi store =
      if vi ≠ points.length then (failResult "Incomplete upsert" dp cc vi, store)
      else (⟨true, none, dp, cc, vi⟩, store) := by
  rw [upsertGo.eq_def]
  simp [h]

/-- A success result of `upsertGo` certifies that every point was
indexed and carries the chunk and document counts it was given. -/
theorem upsertGo_success (uOk : List PointStruct → Bool) (points : List PointStruct)
    (dp cc : Nat) : ∀ i vi store res store2,
    upsertGo uOk points dp cc i vi store = (res, store2) → res.success = true →
      res.vectors_indexed = points.length ∧ res.chunks_created = cc ∧
        res.documents_processed = dp := by
  intro i vi store
  induction i, vi, store using upsertGo.induct uOk points dp cc with
  | case1 i vi store h batch hok ih =>
    intro res store2 hrun hs
    rw [upsertGo.eq_def] at hrun
    simp only [dif_pos h, if_pos hok] at hrun
    exact ih res store2 hrun hs
  | case2 i vi store h batch hok =>
    intro res store2 hrun hs
    rw [upsertGo.eq_def] at hrun
    simp only [dif_pos h, if_neg hok] at hrun
    injection hrun with h1 h2
    rw [← h1] at hs
    simp [failResult] at hs
  | case3 i vi store h hne =>
    intro res store2 hrun hs
    rw [upsertGo.eq_def] at hrun
    simp only [dif_neg h, if_pos hne] at hrun
    injection hrun with h1 h2
    rw [← h1] at hs
    simp [failResult] at hs
  | case4 i vi store h hne =>
    intro res store2 hrun hs
    rw [upsertGo.eq_def] at hrun
    simp only [dif_neg h, if_neg hne] at hrun
    have hvi : vi = points.length := by omega
    injection hrun with h1 h2
    rw [← h1]
    exact ⟨hvi, rfl, rfl⟩

/-! Lemmas about the rerank loop and the corpus characterizations. -/

/-- A successfully processed rerank response of n entries yields exactly
n reranked documents. -/
theorem applyRerank_ok_length :
    ∀ (results : List RerankResult) (docs acc docs2 reranked : List Document),
      HybridReranker.applyRerank docs results acc = .ok (docs2, reranked) →
      reranked.length = acc.length + results.length := by
  intro results
  induction results with
  | nil =>
    intro docs acc docs2 reranked h
    simp only [HybridReranker.applyRerank] at h
    injection h with h1
    injection h1 with ha hb
    simp [← hb]
  | cons r rs ih =>
    intro docs acc docs2 reranked h
    simp only [HybridReranker.applyRerank] at h
    cases hg : docs.get? r.index with
    | none => rw [hg] at h; cases h
    | some d =>
      rw [hg] at h
      have := ih _ _ _ _ h
      simp only [List.length_append, List.length_cons, List.length_nil] at this ⊢
      omega

/-- The chunking fold, characterized over an arbitrary accumulator. -/
theorem chunkFiles_fold (split : String → List String) :
    ∀ (files : List (String × String)) (n : Nat) (acc : List Chunk),
      files.foldl
        (fun acc f =>
          if isBlank f.2 then acc
          else (acc.1 + 1, acc.2 ++ ((split f.2).enum.map (fun p => ⟨p.2, f.1, p.1⟩))))
        (n, acc) =
      (n + (files.filter (fun f => !isBlank f.2)).length,
       acc ++ (files.filter (fun f => !isBlank f.2)).flatMap
         (fun f => (split f.2).enum.map (fun p => ⟨p.2, f.1, p.1⟩))) := by
  intro files
  induction files with
  | nil => simp
  | cons f fs ih =>
    intro n acc
    by_cases hb : isBlank f.2
    · simp only [List.foldl_cons, hb, if_true, List.filter_cons, Bool.not_true]
      rw [ih]
      simp [hb]
    · simp only [List.foldl_cons, hb, if_false, List.filter_cons, Bool.not_false]
      rw [ih]
      simp [hb, List.append_assoc]
      omega

/-- `chunkFiles` counts the non-blank files and concatenates their
enumerated chunks. -/
theorem chunkFiles_spec (split : String → List String) (files : List (String × String)) :
    chunkFiles split files =
      ((files.filter (fun f => !isBlank f.2)).length,
       (files.filter (fun f => !isBlank f.2)).flatMap
         (fun f => (split f.2).enum.map (fun p => ⟨p.2, f.1, p.1⟩))) := by
  have := chunkFiles_fold split files 0 []
  simpa [chunkFiles] using this

/-- Every chunk produced by `chunkFiles` comes from some input file and
carries that file name as `source` and its position in the file splitter
output as `chunk_id`. -/
theorem mem_chunkFiles (split : String → List String) (files : List (String × String))
    (c : Chunk) (hc : c ∈ (chunkFiles split files).2) :
    ∃ f ∈ files, (split f.2)[c.chunk_id]? = some c.text ∧ c.source = f.1 := by
  rw [chunkFiles_spec] at hc
  simp only at hc
  obtain ⟨f, hf, hmem⟩ := List.mem_flatMap.1 hc
  obtain ⟨p, hp, rfl⟩ := List.mem_map.1 hmem
  refine ⟨f, (List.mem_filter.1 hf).1, ?_, rfl⟩
  simpa using List.mem_enum_iff_getElem?.1 hp

/-- Every point of one embedding batch carries the payload of one of the
chunks of the batch. -/
theorem mem_mkPoints (i : Nat) (batch : List Chunk) (vs : List Vec) (p : PointStruct)
    (hp : p ∈ mkPoints i batch vs) : ∃ c ∈ batch, p.payload = mkPayload c := by
  simp only [mkPoints] at hp
  obtain ⟨q, hq, rfl⟩ := List.mem_map.1 hp
  have h2 : q.2 ∈ batch.zip vs := List.getElem?_mem (List.mem_enum_iff_getElem?.1 hq)
  exact ⟨q.2.1, (List.of_mem_zip h2).1, rfl⟩

/-- Every point produced by the embedding loop carries the payload of one
of the chunks. -/
theorem mem_embedBatchesGo (embed : List String → Option (List Vec)) :
    ∀ (i : Nat) (chunks : List Chunk) (p : PointStruct),
      p ∈ embedBatchesGo embed i chunks → ∃ c ∈ chunks, p.payload = mkPayload c := by
  intro i chunks
  induction i, chunks using embedBatchesGo.induct embed with
  | case1 i => intro p hp; rw [embedBatchesGo.eq_1] at hp; cases hp
  | case2 i c cs ih =>
    intro p hp
    rw [embedBatchesGo.eq_2] at hp
    rcases List.mem_append.1 hp with h | h
    · cases hE : embed (((c :: cs).take 20).map Chunk.text) with
      | none => rw [hE] at h; cases h
      | some vs =>
        rw [hE] at h
        obtain ⟨ch, hch, hpl⟩ := mem_mkPoints _ _ _ _ h
        exact ⟨ch, List.take_subset _ _ hch, hpl⟩
    · obtain ⟨ch, hch, hpl⟩ := ih p h
      exact ⟨ch, List.drop_subset _ _ hch, hpl⟩

/-- The BM25 document-loading fold, characterized over an arbitrary
accumulator. -/
theorem bm25_fold :
    ∀ (files : List (String × String)) (acc : List Document),
      files.foldl
        (fun docs f =>
          if isBlank f.2 then docs
          else docs ++ [⟨f.2, { source := some f.1, file_path := some f.1 }⟩])
        acc =
      acc ++ (files.filter (fun f => !isBlank f.2)).map
        (fun f => ⟨f.2, { source := some f.1, file_path := some f.1 }⟩) := by
  intro files
  induction files with
  | nil => simp
  | cons f fs ih =>
    intro acc
    by_cases hb : isBlank f.2
    · simp only [List.foldl_cons, hb, if_true, List.filter_cons, Bool.not_true]
      rw [ih]
      simp [hb]
    · simp only [List.foldl_cons, hb, if_false, List.filter_cons, Bool.not_false]
      rw [ih]
      simp [hb, List.append_assoc]

/-! Claim theorems. -/

/-- Claim C1: for every query, if the external Cohere rerank call raises
(modelled as `rerank ... = none`), `HybridReranker.get_relevant_documents`
does not propagate the failure and returns the first `top_k` candidates of
the pre-rerank (ensemble) order, unmodified and in that order. -/
theorem C1_reranker_fallback (base : String → List Document)
    (rerank : String → List String → Nat → Option (List RerankResult))
    (top_k : Nat) (query : String)
    (hfail : rerank query ((base query).map Document.page_content) top_k = none) :
    HybridReranker.get_relevant_documents base rerank top_k query =
      (base query).take top_k := by
  unfold HybridReranker.get_relevant_documents
  cases hD : (base query).isEmpty
  · simp only [hD, Bool.false_eq_true, if_false, hfail]
  · rw [List.isEmpty_iff] at hD
    simp [hD, hfail]

/-- Witness for C1: a failing reranker over a two-document base order
returns exactly the first document. -/
theorem C1_witness :
    HybridReranker.get_relevant_documents (fun _ => [docA, docB]) (fun _ _ _ => none) 1 "q" =
      [docA] := by
  have h := C1_reranker_fallback (fun _ => [docA, docB]) (fun _ _ _ => none) 1 "q" rfl
  simpa using h

/-- Claim C2 (counterexample): with 21 chunks the embedding call fails on
the first batch (its 20 texts), yet `load_knowledge` does not abort and
does not return a failed result: it continues with the second batch and
returns `success = true` with `vectors_indexed = 1`. -/
theorem C2_counterexample :
    embedFailFirst (List.replicate 20 "c") = none ∧
    (load_knowledge env_all_ok [("a.txt", "x")] split21 embedFailFirst (fun _ => true) []).1 =
      ⟨true, none, 1, 21, 1⟩ := by
  refine ⟨by decide, ?_⟩
  have hc : chunkFiles split21 [("a.txt", "x")] = (1, chunks21) := by decide
  have he : embedBatchesGo embedFailFirst 0 chunks21 =
      [⟨20, [], mkPayload ⟨"c", "a.txt", 20⟩⟩] := by
    rw [embedBatchesGo_none _ _ _ (by decide) (by decide)]
    rw [show chunks21.drop 20 = [⟨"c", "a.txt", 20⟩] from by decide]
    rw [embedBatchesGo_some _ _ _ [[]] (by decide) (by decide)]
    rw [show (([⟨"c", "a.txt", 20⟩] : List Chunk).drop 20) = [] from by decide]
    rw [embedBatchesGo.eq_1]
    decide
  simp only [load_knowledge, hc]
  norm_num [env_all_ok]
  rw [if_neg (show ¬chunks21 = [] from by decide), he,
    show chunks21.length = 21 from by decide]
  norm_num
  rw [upsertGo_step _ _ _ _ _ _ _ (by decide) (by decide)]
  rw [upsertGo_done _ _ _ _ _ _ _ (by decide)]
  norm_num

/-- Claim C2 (amended): when an embedding batch fails, that batch is
skipped (`embedBatchesGo_none` states the skip-and-continue step); only
when every embedding call fails does `load_knowledge` return the failed
result `Embedding generation failed` with the document and chunk counts
and `vectors_indexed = 0`. -/
theorem C2_amended (env : IndexEnv) (files : List (String × String))
    (split : String → List String) (embed : List String → Option (List Vec))
    (uOk : List PointStruct → Bool) (store : List PointStruct)
    (henv : env = ⟨true, true, true, true⟩) (hfiles : files.isEmpty = false)
    (hembed : ∀ ts, embed ts = none) (hchunks : (chunkFiles split files).2 ≠ []) :
    load_knowledge env files split embed uOk store =
      (failResult "Embedding generation failed" (chunkFiles split files).1
        (chunkFiles split files).2.length 0, store) := by
  subst henv
  have hpts := embedBatchesGo_allFail embed hembed 0 (chunkFiles split files).2
  simp only [load_knowledge, hfiles, hpts]
  simp [List.isEmpty_iff, hchunks]

/-- Witness for the amended C2: an always-failing embedding collaborator
on a 21-chunk corpus yields the failed result with counts (1, 21, 0). -/
theorem C2_amended_witness :
    load_knowledge env_all_ok [("a.txt", "x")] split21 (fun _ => none) (fun _ => true) [] =
      (failResult "Embedding generation failed" 1 21 0, []) := by
  have h := C2_amended env_all_ok [("a.txt", "x")] split21 (fun _ => none) (fun _ => true) []
    rfl rfl (fun _ => rfl) (by decide)
  rw [h]
  decide

/-- Claim C3 (counterexample): a run over 22 chunks whose first embedding
batch fails returns `success = true` with `vectors_indexed = 2` but
`chunks_created = 22`: success does not imply one vector per chunk. -/
theorem C3_counterexample :
    (load_knowledge env_all_ok [("b.txt", "y")] split22 embedFailFirst
        (fun _ => true) []).1.success = true ∧
    (load_knowledge env_all_ok [("b.txt", "y")] split22 embedFailFirst
        (fun _ => true) []).1.vectors_indexed ≠
      (load_knowledge env_all_ok [("b.txt", "y")] split22 embedFailFirst
        (fun _ => true) []).1.chunks_created := by
  have hrun : (load_knowledge env_all_ok [("b.txt", "y")] split22 embedFailFirst
      (fun _ => true) []).1 = ⟨true, none, 1, 22, 2⟩ := by
    have hc : chunkFiles split22 [("b.txt", "y")] = (1, chunks22) := by decide
    have he : embedBatchesGo embedFailFirst 0 chunks22 =
        [⟨20, [], mkPayload ⟨"d", "b.txt", 20⟩⟩, ⟨21, [], mkPayload ⟨"d", "b.txt", 21⟩⟩] := by
      rw [embedBatchesGo_none _ _ _ (by decide) (by decide)]
      rw [show chunks22.drop 20 = [⟨"d", "b.txt", 20⟩, ⟨"d", "b.txt", 21⟩] from by decide]
      rw [embedBatchesGo_some _ _ _ [[], []] (by decide) (by decide)]
      rw [show (([⟨"d", "b.txt", 20⟩, ⟨"d", "b.txt", 21⟩] : List Chunk).drop 20) = []
        from by decide]
      rw [embedBatchesGo.eq_1]
      decide
    simp only [load_knowledge, hc]
    norm_num [env_all_ok]
    rw [if_neg (show ¬chunks22 = [] from by decide), he,
      show chunks22.length = 22 from by decide]
    rw [upsertGo_step _ _ _ _ _ _ _ (by decide) (by decide)]
    rw [upsertGo_done _ _ _ _ _ _ _ (by decide)]
    decide
  rw [hrun]
  decide

/-- Claim C3 (amended): provided every embedding call succeeds with one
vector per text, any `load_knowledge` run that returns `success = true`
satisfies `vectors_indexed = chunks_created`. -/
theorem C3_amended (env : IndexEnv) (files : List (String × String))
    (split : String → List String) (embed : List String → Option (List Vec))
    (uOk : List PointStruct → Bool) (store : List PointStruct)
    (res : LoadResult) (store2 : List PointStruct)
    (htotal : ∀ ts, ∃ vs, embed ts = some vs ∧ vs.length = ts.length)
    (hrun : load_knowledge env files split embed uOk store = (res, store2))
    (hs : res.success = true) :
    res.vectors_indexed = res.chunks_created := by
  simp only [load_knowledge] at hrun
  repeat' split at hrun
  any_goals
    injection hrun with h1 h2
    rw [← h1] at hs
    simp [failResult] at hs
  obtain ⟨h1, h2, h3⟩ := upsertGo_success _ _ _ _ _ _ _ _ _ hrun hs
  rw [h1, h2]
  exact embedBatchesGo_total_length embed htotal 0 _

/-- Witness for the amended C3 (the end-to-end scenario of the spec): a
2-document corpus producing 10 chunks indexes as (2, 10, 10) with
success, and the counts agree. -/
theorem C3_amended_witness :
    (load_knowledge env_all_ok files10 split5 embedTotal (fun _ => true) []).1 =
      ⟨true, none, 2, 10, 10⟩ ∧
    (load_knowledge env_all_ok files10 split5 embedTotal (fun _ => true) []).1.vectors_indexed =
      (load_knowledge env_all_ok files10 split5 embedTotal
        (fun _ => true) []).1.chunks_created := by
  have h1 : (load_knowledge env_all_ok files10 split5 embedTotal (fun _ => true) []).1 =
      ⟨true, none, 2, 10, 10⟩ := by
    have hc : chunkFiles split5 files10 = (2, chunks10) := by decide
    have he : embedBatchesGo embedTotal 0 chunks10 = pts10 := by
      rw [embedBatchesGo_some _ _ _ (List.replicate 10 ([] : Vec)) (by decide) (by decide)]
      rw [show chunks10.drop 20 = [] from by decide, embedBatchesGo.eq_1, List.append_nil]
      decide
    simp only [load_knowledge, hc]
    norm_num [env_all_ok, files10]
    rw [if_neg (show ¬chunks10 = [] from by decide), he,
      show chunks10.length = 10 from by decide]
    norm_num [show ¬pts10 = [] from by decide]
    rw [upsertGo_step _ _ _ _ _ _ _ (by decide) (by decide)]
    rw [upsertGo_done _ _ _ _ _ _ _ (by decide)]
    decide
  have hvc := C3_amended env_all_ok files10 split5 embedTotal (fun _ => true) [] _ _
    (fun ts => ⟨ts.map (fun _ => ([] : Vec)), rfl, by simp⟩) Prod.mk.eta.symm
    (by rw [h1])
  exact ⟨h1, hvc⟩

set_option maxRecDepth 8000 in
/-- Claim C4 (counterexample): on a 900-character file split into two
chunks, the BM25 loader returns a single retrieval unit carrying the whole
file text (longer than `CHUNK_SIZE`) with no chunk id, while the chunk
corpus of the vector index has two chunks, none of which equals the BM25
unit: the lexical index is not built from the chunk corpus. -/
theorem C4_counterexample :
    load_documents_for_bm25 true [("doc.txt", t900)] =
      [⟨t900, { source := some "doc.txt", file_path := some "doc.txt" }⟩] ∧
    t900.length > CHUNK_SIZE ∧
    (⟨t900, { source := some "doc.txt", file_path := some "doc.txt" }⟩ :
      Document).metadata.chunk_id = none ∧
    (chunkFiles split900 [("doc.txt", t900)]).2.length = 2 ∧
    (∀ c ∈ (chunkFiles split900 [("doc.txt", t900)]).2, c.text ≠ t900) := by
  refine ⟨by decide, by decide, rfl, by decide, by decide⟩

/-- Claim C4 (amended): the lexical (BM25) index is built from whole
processed files, one retrieval unit per non-blank file, whose content is
the entire file text with metadata `source` and `file_path` and no
chunk/sequence identity; a missing directory yields no units. -/
theorem C4_amended_thm :
    (∀ (files : List (String × String)),
       load_documents_for_bm25 true files =
         (files.filter (fun f => !isBlank f.2)).map
           (fun f => ⟨f.2, { source := some f.1, file_path := some f.1 }⟩))
  ∧ (∀ (files : List (String × String)) (d : Document),
       d ∈ load_documents_for_bm25 true files →
       d.metadata.chunk_id = none ∧ ∃ f ∈ files, d.page_content = f.2)
  ∧ (∀ (files : List (String × String)), load_documents_for_bm25 false files = []) := by
  have hmain : ∀ (files : List (String × String)),
      load_documents_for_bm25 true files =
        (files.filter (fun f => !isBlank f.2)).map
          (fun f => ⟨f.2, { source := some f.1, file_path := some f.1 }⟩) := by
    intro files
    simp only [load_documents_for_bm25]
    rw [bm25_fold files []]
    simp
  refine ⟨hmain, ?_, fun files => by simp [load_documents_for_bm25]⟩
  intro files d hd
  rw [hmain] at hd
  obtain ⟨f, hf, rfl⟩ := List.mem_map.1 hd
  exact ⟨rfl, f, (List.mem_filter.1 hf).1, rfl⟩

set_option maxRecDepth 8000 in
/-- Witness for the amended C4: the single BM25 unit of a one-file corpus
has no chunk id and carries the full file text, and a missing directory
yields no units. -/
theorem C4_amended_witness :
    ((⟨t900, { source := some "doc.txt", file_path := some "doc.txt" }⟩ :
        Document).metadata.chunk_id = none ∧
      ∃ f ∈ [("doc.txt", t900)],
        (⟨t900, { source := some "doc.txt", file_path := some "doc.txt" }⟩ :
          Document).page_content = f.2) ∧
    load_documents_for_bm25 false [("doc.txt", t900)] = [] :=
  ⟨C4_amended_thm.2.1 [("doc.txt", t900)] _ (by decide), C4_amended_thm.2.2 _⟩

/-- Claim C5: if an upsert batch fails, the upsert loop returns
immediately (no later batch is attempted) with a non-success result naming
the failed batch and reporting the documents, chunks and vectors counted
so far, and the store is returned as it stands, the batches already
written kept (no rollback). `load_knowledge` enters this loop at position
0 with 0 vectors counted. -/
theorem C5_upsert_abort (uOk : List PointStruct → Bool) (points : List PointStruct)
    (dp cc i vi : Nat) (store : List PointStruct) (h : i < points.length)
    (hf : uOk ((points.drop i).take 100) = false) :
    upsertGo uOk points dp cc i vi store =
      (failResult ("Failed to upsert vectors at batch " ++ toString (i / 100 + 1)) dp cc vi,
       store) := by
  rw [upsertGo.eq_def]
  simp [h, hf]

/-- Witness for C5: 101 points, the first 100-point batch succeeds and the
second fails; the run reports batch 2, 100 vectors indexed, and keeps the
first batch in the store. -/
theorem C5_witness :
    upsertGo upsertOkFirst pts101 2 101 0 0 [] =
      (failResult "Failed to upsert vectors at batch 2" 2 101 100, pts101.take 100) := by
  rw [upsertGo_step _ _ _ _ _ _ _ (by decide) (by decide)]
  rw [C5_upsert_abort _ _ _ _ _ _ _ (by decide) (by decide)]
  decide

/-- Claim C6: `ensure_collection` is idempotent: if the collection already
exists the call is a no-op returning success, and calling it twice with
the same parameters succeeds both times, the second call leaving the
server state unchanged (no duplicate collection). -/
theorem C6_ensure_collection_idempotent :
    (∀ (create_ok : Bool) (st : QdrantState) (nm : String) (sz : Nat) (d : String),
       nm ∈ st.collections.map Prod.fst →
       ensure_collection true true create_ok st nm sz d = (true, st))
  ∧ (∀ (st : QdrantState) (nm : String) (sz : Nat) (d : String),
       (ensure_collection true true true st nm sz d).1 = true ∧
       ensure_collection true true true (ensure_collection true true true st nm sz d).2 nm sz d =
         (true, (ensure_collection true true true st nm sz d).2)) := by
  constructor
  · intro co st nm sz d hmem
    simp [ensure_collection, hmem]
  · intro st nm sz d
    by_cases hmem : nm ∈ st.collections.map Prod.fst
    · simp [ensure_collection, hmem]
    · refine ⟨by simp [ensure_collection, hmem], ?_⟩
      have h2 : (ensure_collection true true true st nm sz d).2 =
          ⟨st.collections ++ [(nm, ⟨sz, d⟩)]⟩ := by
        simp [ensure_collection, hmem]
      rw [h2]
      have hin : nm ∈ (st.collections ++ [(nm, (⟨sz, d⟩ : CollectionCfg))]).map Prod.fst := by
        simp
      simp [ensure_collection, hin]

/-- Witness for C6: the call is a no-op success on a server already
holding the collection, and succeeds on an empty server. -/
theorem C6_witness :
    ensure_collection true true true ⟨[("moneymentor_knowledge", ⟨1536, "COSINE"⟩)]⟩
        "moneymentor_knowledge" 1536 "COSINE" =
      (true, ⟨[("moneymentor_knowledge", ⟨1536, "COSINE"⟩)]⟩) ∧
    (ensure_collection true true true ⟨[]⟩ "moneymentor_knowledge" 1536 "COSINE").1 = true :=
  ⟨C6_ensure_collection_idempotent.1 true _ _ _ _ (by decide),
   (C6_ensure_collection_idempotent.2 ⟨[]⟩ "moneymentor_knowledge" 1536 "COSINE").1⟩

/-- Claim C7: every point written by the indexing run has a payload with
exactly the keys `text`, `source` and `chunk_id`, in this order, and its
`chunk_id` is the zero-based position of the chunk text within the
splitter output of its source file. -/
theorem C7_payload_contract (split : String → List String)
    (files : List (String × String)) (embed : List String → Option (List Vec))
    (p : PointStruct) (hp : p ∈ embedBatchesGo embed 0 (chunkFiles split files).2) :
    p.payload.map Prod.fst = ["text", "source", "chunk_id"] ∧
    ∃ nm tx, (nm, tx) ∈ files ∧ ∃ i txt, (split tx)[i]? = some txt ∧
      p.payload = [("text", .str txt), ("source", .str nm), ("chunk_id", .nat i)] := by
  obtain ⟨c, hc, hpl⟩ := mem_embedBatchesGo embed 0 _ p hp
  obtain ⟨f, hf, hget, hsrc⟩ := mem_chunkFiles split files c hc
  refine ⟨by rw [hpl]; rfl, f.1, f.2, by simpa using hf, c.chunk_id, c.text, hget, ?_⟩
  rw [hpl, ← hsrc]
  rfl

/-- Membership fact used by the C7 witness: the second point of a concrete
two-chunk run is among the produced points. -/
theorem C7_witness_mem : ptC7 ∈ embedBatchesGo embedTotal 0
    (chunkFiles split2C7 [("a.txt", "x")]).2 := by
  rw [show (chunkFiles split2C7 [("a.txt", "x")]).2 = chunks2C7 from by decide]
  rw [embedBatchesGo_some _ _ _ [[], []] (by decide) (by decide)]
  rw [show chunks2C7.drop 20 = [] from by decide, embedBatchesGo.eq_1, List.append_nil]
  decide

/-- Witness for C7: the concrete point has exactly the three payload keys
and its chunk id names the position of its text in the splitter output. -/
theorem C7_witness :
    ptC7.payload.map Prod.fst = ["text", "source", "chunk_id"] ∧
    ∃ nm tx, (nm, tx) ∈ [("a.txt", "x")] ∧ ∃ i txt, (split2C7 tx)[i]? = some txt ∧
      ptC7.payload = [("text", .str txt), ("source", .str nm), ("chunk_id", .nat i)] :=
  C7_payload_contract split2C7 [("a.txt", "x")] embedTotal ptC7 C7_witness_mem

/-- Claim C8: when retrieval finds zero relevant chunks, the query path
does not fail: it returns the neutral no-information answer with an empty
sources list and the regular chat model name. -/
theorem C8_empty_retrieval (retrieve : String → List Document)
    (llm : String → String → String) (query : String) (k : Nat) (mode : String)
    (rc : Bool) (h : retrieve query = []) :
    get_finance_answer true retrieve llm query k mode rc =
      { answer := noInfoAnswer, sources := [], query := query,
        model := CHAT_MODEL, mode := mode } := by
  simp [get_finance_answer, h]

/-- Witness for C8: a query against an empty index returns the neutral
answer and no sources. -/
theorem C8_witness :
    get_finance_answer true (fun _ => []) (fun _ _ => "") "What is compound interest?" 5
        "fast" false =
      { answer := noInfoAnswer, sources := [], query := "What is compound interest?",
        model := CHAT_MODEL, mode := "fast" } :=
  C8_empty_retrieval _ _ _ _ _ _ rfl

/-- Claim C9: quality-mode retrieval returns at most `top_k` documents on
the rerank path (given the rerank collaborator honors its `top_n`
contract), on the fallback path, and when the base retriever returns
nothing. -/
theorem C9_quality_mode_at_most_k (base : String → List Document)
    (rerank : String → List String → Nat → Option (List RerankResult))
    (top_k : Nat) (query : String)
    (hlen : ∀ res, rerank query ((base query).map Document.page_content) top_k = some res →
      res.length ≤ top_k) :
    (HybridReranker.get_relevant_documents base rerank top_k query).length ≤ top_k := by
  simp only [HybridReranker.get_relevant_documents]
  split
  · simp
  · split
    · simp [List.length_take]
    · next res hR =>
      split
      · simp [List.length_take]
      · next docs2 reranked hA =>
        split
        · simp [List.length_take]
        · have h1 := applyRerank_ok_length res (base query) [] docs2 reranked hA
          have h2 := hlen res hR
          simp only [List.length_nil, Nat.zero_add] at h1
          omega

/-- Witness for C9: a two-document base order reranked with `top_k = 1`
yields at most one document. -/
theorem C9_witness :
    (HybridReranker.get_relevant_documents (fun _ => [docA, docB])
      (fun _ _ _ => some [(⟨1, 1⟩ : RerankResult)]) 1 "q").length ≤ 1 := by
  refine C9_quality_mode_at_most_k _ _ _ _ ?_
  intro res h
  injection h with h1
  rw [← h1]
  simp

/-- Claim C10: only the exact mode string `advanced` selects the hybrid
rerank retriever; every other mode string (including misspellings and the
empty string) silently selects the base similarity retriever, and no mode
value fails. -/
theorem C10_mode_routing :
    (∀ (mode collection_name : String) (k : Nat), mode ≠ "advanced" →
       get_retriever mode collection_name k = Retriever.base collection_name k) ∧
    (∀ (collection_name : String) (k : Nat),
       get_retriever "advanced" collection_name k = Retriever.advanced collection_name k) := by
  constructor
  · intro mode cn k h
    simp [get_retriever, h]
  · intro cn k
    simp [get_retriever]

/-- Witness for C10: the strings `fast`, `quality` and the empty string
route to the base retriever; `advanced` routes to the hybrid one. -/
theorem C10_witness :
    get_retriever "fast" "moneymentor_knowledge" 5 = Retriever.base "moneymentor_knowledge" 5 ∧
    get_retriever "quality" "moneymentor_knowledge" 5 =
      Retriever.base "moneymentor_knowledge" 5 ∧
    get_retriever "" "moneymentor_knowledge" 5 = Retriever.base "moneymentor_knowledge" 5 ∧
    get_retriever "advanced" "moneymentor_knowledge" 5 =
      Retriever.advanced "moneymentor_knowledge" 5 :=
  ⟨C10_mode_routing.1 _ _ _ (by decide), C10_mode_routing.1 _ _ _ (by decide),
   C10_mode_routing.1 _ _ _ (by decide), C10_mode_routing.2 _ _⟩

end MoneyMentor

